import Mathlib

/-!
Verification of the TrailBase Python client SDK
(`src/client/python/trailbase/__init__.py`) against its natural-language
specification.  The Python module is shallowly embedded: classes become
structures, fallible code (Python exceptions) becomes `Except PyError`,
Python dicts become insertion-ordered association lists, the `httpx`
transport and `jwt.decode` become explicit function parameters, and the
mutable `Client._tokenState` slot becomes explicit state passing.
-/

set_option maxRecDepth 4096

/-- A Python JSON value as handled by the client (the client never relies on
float payloads for the logic modelled here, so numbers are integers). -/
inductive JSON where
  | null
  | boolean (b : Bool)
  | number (n : Int)
  | str (s : String)
  | arr (elems : List JSON)
  | obj (fields : List (String × JSON))

/-- Python exceptions raised by the embedded code.  Constructor choice only
distinguishes the exception classes the claims talk about; message strings are
dropped except for the status code carried by HTTP-failure exceptions. -/
inductive PyError where
  | decodeError
  | keyError (k : String)
  | typeError
  | assertionError
  | jsonError
  | httpError (status : Int)
  | transportError
deriving Repr, DecidableEq

/-- Python `d[k] = v` on a `dict[str, str]` represented as an
insertion-ordered association list: overwrite in place when the key exists,
append otherwise. -/
def dictInsert (d : List (String × String)) (k v : String) : List (String × String) :=
  if d.any (fun p => p.1 == k) then
    d.map (fun p => if p.1 == k then (k, v) else p)
  else
    d ++ [(k, v)]

/-- Python `d.get(k)` on a `dict[str, str]`. -/
def dictGet (d : List (String × String)) (k : String) : Option String :=
  (d.find? (fun p => p.1 == k)).map Prod.snd

/-- The keys of a dict in insertion order. -/
def dictKeys (d : List (String × String)) : List String :=
  d.map Prod.fst

/-- Python `json[k]` on a JSON value: `KeyError` when the key is missing,
`TypeError` when the value is not an object. -/
def JSON.getKey : JSON → String → Except PyError JSON
  | .obj fields, k =>
    match fields.find? (fun p => p.1 == k) with
    | some p => .ok p.2
    | none => .error (.keyError k)
  | _, _ => .error .typeError

/-- Python `assert isinstance(x, str)` followed by use of `x` as a string. -/
def JSON.asStr : JSON → Except PyError String
  | .str s => .ok s
  | _ => .error .assertionError

/-- Python `assert isinstance(x, int)` followed by use of `x` as an int. -/
def JSON.asInt : JSON → Except PyError Int
  | .number n => .ok n
  | _ => .error .assertionError

/-- `class Tokens` (lines 105-134): raw credential triple. -/
structure Tokens where
  auth : String
  refresh : Option String
  csrf : Option String
deriving Repr, DecidableEq

/-- `class JwtToken` (lines 137-149): decoded claims. -/
structure JwtToken where
  sub : String
  iat : Int
  exp : Int
  email : String
  csrfToken : String
deriving Repr, DecidableEq

/-- `JwtToken.from_json` (lines 151-164): field extraction with isinstance
asserts; any missing or mistyped field raises. -/
def JwtToken.from_json (j : JSON) : Except PyError JwtToken := do
  let sub ← (← j.getKey "sub").asStr
  let iat ← (← j.getKey "iat").asInt
  let exp ← (← j.getKey "exp").asInt
  let email ← (← j.getKey "email").asStr
  let csrfToken ← (← j.getKey "csrf_token").asStr
  return ⟨sub, iat, exp, email, csrfToken⟩

/-- The behaviour of `jwt.decode(token, algorithms=["EdDSA"],
options={"verify_signature": False})` supplied as a parameter: it returns the
payload dict or raises (PyJWT never returns `None`, but the call sites in the
source compare the result against `None`, so the model keeps the `Option`
to mirror that branch structure). -/
def JwtDecode : Type := String → Except PyError (Option JSON)

/-- `class TokenState` (lines 167-173): session-state snapshot. -/
structure TokenState where
  state : Option (Tokens × JwtToken)
  headers : List (String × String)
deriving Repr, DecidableEq

/-- `TokenState.build_headers` (lines 191-208). -/
def TokenState.build_headers (tokens : Option Tokens) : List (String × String) :=
  let base := [("Content-Type", "application/json")]
  match tokens with
  | none => base
  | some t =>
    let base := dictInsert base "Authorization" ("Bearer " ++ t.auth)
    let base := match t.refresh with
      | some refresh => dictInsert base "Refresh-Token" refresh
      | none => base
    match t.csrf with
    | some csrf => dictInsert base "CSRF-Token" csrf
    | none => base

/-- `TokenState.build` (lines 175-189): decodes the auth token when tokens are
present (an undecodable token makes `jwt.decode` raise, which propagates), then
pairs the tokens with the parsed claims and the derived headers. -/
def TokenState.build (decode : JwtDecode) (tokens : Option Tokens) : Except PyError TokenState :=
  match tokens with
  | none => .ok ⟨none, TokenState.build_headers none⟩
  | some t =>
    match decode t.auth with
    | .error e => .error e
    | .ok none => .ok ⟨none, TokenState.build_headers (some t)⟩
    | .ok (some d) =>
      match JwtToken.from_json d with
      | .error e => .error e
      | .ok claims => .ok ⟨some (t, claims), TokenState.build_headers (some t)⟩

/-- An HTTP response as seen through `httpx.Response`: the status code and the
result of calling `.json()` on the body (an error when the body is not JSON). -/
structure Response where
  status_code : Int
  json : Except PyError JSON

/-- The behaviour of a single `ThinClient.fetch` round-trip (lines 219-234)
supplied as a parameter: given path, method, request body and the token state
whose headers are sent, the transport either returns a response or raises. -/
def Transport : Type := String → String → JSON → TokenState → Except PyError Response

/-- `Client.tokens` (lines 390-392). -/
def Client.tokens (ts : TokenState) : Option Tokens :=
  ts.state.map (fun s => s.1)

/-- `Client._shouldRefresh` (lines 467-473), with `int(time())` passed in as
`now`. -/
def Client._shouldRefresh (tokenState : TokenState) (now : Int) : Option String :=
  match tokenState.state with
  | some st => if st.2.exp - 60 < now then st.1.refresh else none
  | none => none

/-- `Client._refreshTokensImpl` (lines 475-492): POSTs the refresh token,
then builds a fresh state from the returned `auth_token`/`csrf_token` combined
with the refresh token that was sent.  A non-string token value would make
`jwt.decode` inside `TokenState.build` raise, modelled as `typeError`. -/
def Client._refreshTokensImpl (decode : JwtDecode) (transport : Transport)
    (ts : TokenState) (refreshToken : String) : Except PyError TokenState :=
  match transport "api/auth/v1/refresh" "POST"
      (.obj [("refresh_token", .str refreshToken)]) ts with
  | .error e => .error e
  | .ok response =>
    match response.json with
    | .error e => .error e
    | .ok j =>
      match j.getKey "auth_token" with
      | .error e => .error e
      | .ok a =>
        match j.getKey "csrf_token" with
        | .error e => .error e
        | .ok c =>
          match a, c with
          | .str a, .str c => TokenState.build decode (some ⟨a, some refreshToken, some c⟩)
          | _, _ => .error .typeError

/-- `Client._updateTokens` (lines 453-465): builds the new state (propagating
a decode failure before anything is stored); the expiry warning is a log line
with no state effect. -/
def Client._updateTokens (decode : JwtDecode) (tokens : Option Tokens) :
    Except PyError TokenState :=
  TokenState.build decode tokens

/-- `Client.fetch` (lines 494-506): pre-emptive refresh then the transport
round-trip.  The returned pair carries the `Client._tokenState` slot after the
call; an error also carries the slot's value at the point the exception left
the method. -/
def Client.fetch (decode : JwtDecode) (transport : Transport) (now : Int)
    (ts : TokenState) (path method : String) (data : JSON) :
    Except (PyError × TokenState) (Response × TokenState) :=
  match Client._shouldRefresh ts now with
  | none =>
    match transport path method data ts with
    | .ok r => .ok (r, ts)
    | .error e => .error (e, ts)
  | some refreshToken =>
    match Client._refreshTokensImpl decode transport ts refreshToken with
    | .error e => .error (e, ts)
    | .ok ts2 =>
      match transport path method data ts2 with
      | .ok r => .ok (r, ts2)
      | .error e => .error (e, ts2)

/-- The tail of `Client.login` (lines 418-426): read the three token fields
out of the JSON body (a missing key raises `KeyError`; a non-string value
would fail inside `TokenState.build`, modelled as `typeError`), then build
and store the new state via `_updateTokens`. -/
def Client.loginFinish (decode : JwtDecode) (response : Response) :
    Except PyError (Tokens × TokenState) :=
  match response.json with
  | .error e => .error e
  | .ok j =>
    match j.getKey "auth_token" with
    | .error e => .error e
    | .ok a =>
      match j.getKey "refresh_token" with
      | .error e => .error e
      | .ok r =>
        match j.getKey "csrf_token" with
        | .error e => .error e
        | .ok c =>
          match a, r, c with
          | .str a, .str r, .str c =>
            match Client._updateTokens decode (some ⟨a, some r, some c⟩) with
            | .error e => .error e
            | .ok ts2 => .ok (⟨a, some r, some c⟩, ts2)
          | _, _, _ => .error .typeError

/-- `Client.login` (lines 408-426): POST to the login endpoint through
`Client.fetch`, then the body/parse/store step of `loginFinish`.  Every
failure after the fetch leaves the slot at the state the fetch left it. -/
def Client.login (decode : JwtDecode) (transport : Transport) (now : Int)
    (ts : TokenState) (email password : String) :
    Except (PyError × TokenState) (Tokens × TokenState) :=
  match Client.fetch decode transport now ts "api/auth/v1/login" "POST"
      (.obj [("email", .str email), ("password", .str password)]) with
  | .error (e, ts1) => .error (e, ts1)
  | .ok (response, ts1) =>
    match Client.loginFinish decode response with
    | .error e => .error (e, ts1)
    | .ok (tokens, ts2) => .ok (tokens, ts2)

/-- `Client.logout` (lines 428-445): the logout request goes through
`Client.fetch` inside `try  except: pass`, so its result, any exception it
raises, and any token-state assignment it performed are all dead by the time
`_updateTokens(None)` overwrites the slot unconditionally. -/
def Client.logout (decode : JwtDecode) (transport : Transport) (now : Int)
    (ts : TokenState) : Except PyError TokenState :=
  let refreshToken := match ts.state with
    | some st => st.1.refresh
    | none => none
  let _attempt := match refreshToken with
    | some rt => Client.fetch decode transport now ts "api/auth/v1/logout" "POST"
        (.obj [("refresh_token", .str rt)])
    | none => Client.fetch decode transport now ts "api/auth/v1/logout" "GET" .null
  Client._updateTokens decode none

/-- `class RecordId` (lines 38-45). -/
structure RecordId where
  id : String
deriving Repr, DecidableEq

/-- The `convert` comprehension inside `record_ids_from_json` (lines 52-56):
assert each entry is a string and wrap it, left to right. -/
def convertRecordIds : List JSON → Except PyError (List RecordId)
  | [] => .ok []
  | v :: rest => do
    let s ← v.asStr
    let others ← convertRecordIds rest
    return RecordId.mk s :: others

/-- `record_ids_from_json` (lines 48-56): `json["ids"]` must be a list of
strings; each entry becomes a `RecordId`, in order (the `convert` helper
asserts each entry is a string and raises at the first that is not). -/
def record_ids_from_json (j : JSON) : Except PyError (List RecordId) := do
  let ids ← j.getKey "ids"
  match ids with
  | .arr elems => convertRecordIds elems
  | _ => .error .assertionError

/-- `RecordApi.create` (lines 664-673) as a function of the response of its
dispatched POST: raise when `status_code > 200`, otherwise the first id of
`record_ids_from_json(response.json())` (an empty id list raises IndexError,
modelled as `assertionError`). -/
def RecordApi.create (response : Response) : Except PyError RecordId :=
  if response.status_code > 200 then .error (.httpError response.status_code)
  else do
    let j ← response.json
    let ids ← record_ids_from_json j
    match ids with
    | id :: _ => .ok id
    | [] => .error .assertionError

/-- `RecordApi.read` (lines 651-662) as a function of the response of its
dispatched GET: no status check at all, just `response.json()`. -/
def RecordApi.read (response : Response) : Except PyError JSON :=
  response.json

/-- `class CompareOp` (lines 529-537). -/
inductive CompareOp where
  | EQUAL
  | NOT_EQUAL
  | LESS_THAN
  | LESS_THAN_EQUAL
  | GREATER_THAN
  | GREATER_THAN_EQUAL
  | LIKE
  | REGEXP
deriving Repr, DecidableEq

/-- `CompareOp.__repr__` (lines 539-556). -/
def CompareOp.reprStr : CompareOp → String
  | .EQUAL => "$eq"
  | .NOT_EQUAL => "$ne"
  | .LESS_THAN => "$lt"
  | .LESS_THAN_EQUAL => "$lte"
  | .GREATER_THAN => "$gt"
  | .GREATER_THAN_EQUAL => "$gte"
  | .LIKE => "$like"
  | .REGEXP => "$re"

/-- The `FilterOrComposite` union (lines 559-587): a leaf comparison or an
`And`/`Or` node over a list of sub-filters. -/
inductive FilterOrComposite where
  | Filter (column : String) (op : Option CompareOp) (value : String)
  | And (filters : List FilterOrComposite)
  | Or (filters : List FilterOrComposite)
deriving Repr

mutual

/-- `traverseFilters` inside `RecordApi.list` (lines 630-642), threading the
`params` dict instead of mutating it.  Note the composite cases extend the
path with the f-string `f"{path}[$and][{i}"` / `f"{path}[$or][{i}"`, exactly
as written in the source: no closing bracket after the index. -/
def traverseFilters (path : String) (params : List (String × String)) :
    FilterOrComposite → List (String × String)
  | .Filter column op value =>
    match op with
    | some o => dictInsert params (path ++ "[" ++ column ++ "][" ++ o.reprStr ++ "]") value
    | none => dictInsert params (path ++ "[" ++ column ++ "]") value
  | .And filters => traverseFiltersEnum (path ++ "[$and][") 0 params filters
  | .Or filters => traverseFiltersEnum (path ++ "[$or][") 0 params filters

/-- The `for i, filter in enumerate(f.filters)` loop of `traverseFilters`:
left-to-right over the sub-filters, appending the running index to the path
prefix. -/
def traverseFiltersEnum (pathPrefix : String) (i : Nat)
    (params : List (String × String)) :
    List FilterOrComposite → List (String × String)
  | [] => params
  | f :: rest =>
    traverseFiltersEnum pathPrefix (i + 1)
      (traverseFilters (pathPrefix ++ toString i) params f) rest

end

/-- The query-parameter construction of `RecordApi.list` (lines 600-646):
cursor, limit, offset, order, expand, count, then the filter traversal rooted
at path `"filter"`. -/
def RecordApi.listParams (order : Option (List String))
    (filters : Option (List FilterOrComposite)) (cursor : Option String)
    (expand : Option (List String)) (limit : Option Int) (offset : Option Int)
    (count : Bool) : List (String × String) :=
  let params : List (String × String) := []
  let params := match cursor with
    | some c => dictInsert params "cursor" c
    | none => params
  let params := match limit with
    | some l => dictInsert params "limit" (toString l)
    | none => params
  let params := match offset with
    | some o => dictInsert params "offset" (toString o)
    | none => params
  let params := match order with
    | some o => dictInsert params "order" (String.intercalate "," o)
    | none => params
  let params := match expand with
    | some e => dictInsert params "expand" (String.intercalate "," e)
    | none => params
  let params := if count then dictInsert params "count" "true" else params
  match filters with
  | some fs => fs.foldl (fun ps f => traverseFilters "filter" ps f) params
  | none => params

/-- The tagged operation union built by `ApiBatch` (lines 273-292 and
347-370): `record_id` is already stringified (`repr` of a `RecordId` is its
id; ints and strings go through `f"{recordId}"`). -/
inductive Operation where
  | Create (api_name : String) (value : JSON)
  | Update (api_name : String) (record_id : String) (value : JSON)
  | Delete (api_name : String) (record_id : String)

/-- The JSON wire form `{Create: {...}} | {Update: {...}} | {Delete: {...}}`
of one operation, as produced by `dict(op)` in `TransactionBatch.send`. -/
def Operation.toJson : Operation → JSON
  | .Create n v => .obj [("Create", .obj [("api_name", .str n), ("value", v)])]
  | .Update n r v => .obj [("Update", .obj [("api_name", .str n), ("record_id", .str r), ("value", v)])]
  | .Delete n r => .obj [("Delete", .obj [("api_name", .str n), ("record_id", .str r)])]

/-- `TransactionBatch.add_operation` (lines 343-344): append to
`_operations`. -/
def TransactionBatch.add_operation (ops : List Operation) (op : Operation) :
    List Operation :=
  ops ++ [op]

/-- `ApiBatch.create` (lines 355-358). -/
def ApiBatch.create (api_name : String) (value : JSON) (ops : List Operation) :
    List Operation :=
  TransactionBatch.add_operation ops (.Create api_name value)

/-- `ApiBatch.update` (lines 360-364). -/
def ApiBatch.update (api_name : String) (record_id : String) (value : JSON)
    (ops : List Operation) : List Operation :=
  TransactionBatch.add_operation ops (.Update api_name record_id value)

/-- `ApiBatch.delete` (lines 366-370). -/
def ApiBatch.delete (api_name : String) (record_id : String)
    (ops : List Operation) : List Operation :=
  TransactionBatch.add_operation ops (.Delete api_name record_id)

/-- The POST body `{"operations": ops_json}` built by `TransactionBatch.send`
(lines 330-337). -/
def TransactionBatch.sendBody (ops : List Operation) : JSON :=
  .obj [("operations", .arr (ops.map Operation.toJson))]

/-- The result handling of `TransactionBatch.send` (lines 338-341) as a
function of the response: raise (with the status) unless the status is
exactly 200, otherwise `record_ids_from_json(response.json())`. -/
def TransactionBatch.send (ops : List Operation) (response : Response) :
    Except PyError (List RecordId) :=
  let _body := TransactionBatch.sendBody ops
  if response.status_code ≠ 200 then .error (.httpError response.status_code)
  else do
    let j ← response.json
    record_ids_from_json j

/-- A heap of Python `dict[str, str]` objects, addressed by reference, used to
give the header-dict mutation in `ThinClient.stream` its aliasing
semantics. -/
structure DictStore where
  dicts : List (List (String × String))
deriving Repr, DecidableEq

/-- Dereference a dict. -/
def DictStore.get (s : DictStore) (ref : Nat) : List (String × String) :=
  s.dicts.getD ref []

/-- In-place update of the dict behind a reference. -/
def DictStore.set (s : DictStore) (ref : Nat) (d : List (String × String)) :
    DictStore :=
  ⟨s.dicts.set ref d⟩

/-- Allocate a fresh dict, returning its reference. -/
def DictStore.alloc (s : DictStore) (d : List (String × String)) :
    DictStore × Nat :=
  (⟨s.dicts ++ [d]⟩, s.dicts.length)

/-- The header handling of `ThinClient.stream` (lines 236-269):
`headers = tokenState.headers.copy()` allocates a fresh dict holding a copy of
the session's headers, and the two `headers[...] = ...` assignments mutate
that fresh dict.  Returns the store after the call and the reference of the
dict sent with the request. -/
def ThinClient.stream (store : DictStore) (tokenStateHeadersRef : Nat) :
    DictStore × Nat :=
  let alloc := store.alloc (store.get tokenStateHeadersRef)
  let store1 := alloc.1
  let headersRef := alloc.2
  let store2 := store1.set headersRef
    (dictInsert (store1.get headersRef) "Accept" "text/event-stream")
  let store3 := store2.set headersRef
    (dictInsert (store2.get headersRef) "Cache-Control" "no-store")
  (store3, headersRef)

/-- A concrete claims payload used to instantiate the decode parameter in
witnesses: the JSON object PyJWT would return for a token expiring at
`exp`. -/
def sampleClaimsJson (exp : Int) : JSON :=
  .obj [("sub", .str "user1"), ("iat", .number 0), ("exp", .number exp),
    ("email", .str "admin@localhost"), ("csrf_token", .str "csrf")]

/-- A concrete instantiation of the `jwt.decode` parameter for witnesses:
two well-formed tokens, everything else raises `DecodeError`. -/
def sampleDecode : JwtDecode := fun s =>
  if s = "oldAuth" then .ok (some (sampleClaimsJson 100))
  else if s = "newAuth" then .ok (some (sampleClaimsJson 10000))
  else .error .decodeError

/-- The decoded claims of `"oldAuth"` under `sampleDecode`. -/
def sampleOldClaims : JwtToken :=
  ⟨"user1", 0, 100, "admin@localhost", "csrf"⟩

/-- The decoded claims of `"newAuth"` under `sampleDecode`. -/
def sampleNewClaims : JwtToken :=
  ⟨"user1", 0, 10000, "admin@localhost", "csrf"⟩

/-- A concrete session state holding the `"oldAuth"` credentials. -/
def sampleOldState : TokenState :=
  ⟨some (⟨"oldAuth", some "r0", some "c0"⟩, sampleOldClaims),
    TokenState.build_headers (some ⟨"oldAuth", some "r0", some "c0"⟩)⟩

/-- A concrete transport for witnesses: the refresh endpoint succeeds with
fresh tokens (note its body carries a `refresh_token` field the client must
not adopt), the login endpoint returns a JSON body without an `auth_token`
field, and every other path raises. -/
def sampleTransport : Transport := fun path _method _data _ts =>
  if path = "api/auth/v1/refresh" then
    .ok ⟨200, .ok (.obj [("auth_token", .str "newAuth"),
      ("refresh_token", .str "SERVER-SIDE-R"), ("csrf_token", .str "c1")])⟩
  else if path = "api/auth/v1/login" then
    .ok ⟨500, .ok (.obj [("error", .str "boom")])⟩
  else
    .error .transportError

/-- The session state after a successful refresh of `sampleOldState` against
`sampleTransport`: fresh auth and csrf tokens, the same refresh token. -/
def sampleRefreshedState : TokenState :=
  ⟨some (⟨"newAuth", some "r0", some "c1"⟩, sampleNewClaims),
    TokenState.build_headers (some ⟨"newAuth", some "r0", some "c1"⟩)⟩

deriving instance DecidableEq for Except

/-- Helper: a transport that always raises, used to exercise the
network-failure branches in witnesses. -/
def sampleTransportDown : Transport := fun _ _ _ _ => .error .transportError

/-- One `ApiBatch.create`/`update`/`delete` call applied to the accumulated
`_operations` list, the call described by the operation it constructs. -/
def applyApiBatchCall (ops : List Operation) : Operation → List Operation
  | .Create n v => ApiBatch.create n v ops
  | .Update n r v => ApiBatch.update n r v ops
  | .Delete n r => ApiBatch.delete n r ops

/-- A sequence of `ApiBatch` calls run against the freshly constructed
`TransactionBatch` (whose `_operations` starts empty). -/
def applyApiBatchCalls (calls : List Operation) : List Operation :=
  calls.foldl applyApiBatchCall []

/-- Helper: when `TokenState.build` succeeds on present tokens with
credentials present in the result, the tokens stored are exactly the tokens
passed in. -/
theorem TokenState.build_state_tokens (decode : JwtDecode) (t0 : Tokens)
    (st : TokenState) (t : Tokens) (cl : JwtToken)
    (h : TokenState.build decode (some t0) = .ok st)
    (h2 : st.state = some (t, cl)) : t = t0 := by
  simp only [TokenState.build] at h
  split at h
  · exact absurd h (by simp)
  · cases h
    simp at h2
  · split at h
    · exact absurd h (by simp)
    · cases h
      simp at h2
      exact h2.1.symm

/-- Claim C1, counterexample: at the expiry boundary `exp - 60 = now` the
claim ("returns the refresh token iff `expiresAt - 60 <= now`") demands the
refresh token, but `_shouldRefresh` uses a strict comparison and returns
absent: with credentials present, refresh token `"r"`, `exp = 160` and
`now = 100` we have `exp - 60 <= now` yet the result is `none`. -/
theorem C1_counterexample :
    ((⟨"s", 0, 160, "e", "c"⟩ : JwtToken).exp - 60 ≤ (100 : Int)) ∧
    Client._shouldRefresh
      ⟨some (⟨"a", some "r", none⟩, ⟨"s", 0, 160, "e", "c"⟩), []⟩ 100 = none := by
  exact ⟨by decide, by decide⟩

/-- Claim C1 (amended): for every session state with credentials present,
`_shouldRefresh` returns the state's refresh token iff
`claims.expiresAt - 60 < now` (strictly, not `<=` as claimed); for every state
with credentials absent it returns absent. -/
theorem C1_shouldRefresh (st : TokenState) (now : Int) :
    (st.state = none → Client._shouldRefresh st now = none) ∧
    ∀ t c, st.state = some (t, c) →
      (c.exp - 60 < now → Client._shouldRefresh st now = t.refresh) ∧
      (¬ c.exp - 60 < now → Client._shouldRefresh st now = none) := by
  constructor
  · intro h
    simp [Client._shouldRefresh, h]
  · intro t c h
    constructor
    · intro hlt
      simp [Client._shouldRefresh, h, hlt]
    · intro hge
      simp [Client._shouldRefresh, h, hge]

/-- Claim C1, witness: a state whose token expires at 100 is refreshed at
`now = 50` (since `100 - 60 < 50`), returning its refresh token. -/
theorem C1_shouldRefresh_witness :
    Client._shouldRefresh
      ⟨some (⟨"a", some "r", none⟩, ⟨"s", 0, 100, "e", "c"⟩), []⟩ 50 = some "r" :=
  ((C1_shouldRefresh ⟨some (⟨"a", some "r", none⟩, ⟨"s", 0, 100, "e", "c"⟩), []⟩ 50).2
    ⟨"a", some "r", none⟩ ⟨"s", 0, 100, "e", "c"⟩ rfl).1 (by decide)

/-- Claim C2: the claim says `TokenState.build` on tokens whose auth token
cannot be decoded returns (does not raise) a credentials-absent state with
headers derived from the raw tokens.  The code instead propagates the
exception from `jwt.decode` (which raises on a malformed token and never
returns `None`, making the `decoded == None` handling branch dead code):
whenever decoding fails, `build` raises that error and no headers are
produced. -/
theorem C2_build_raises (decode : JwtDecode) (t : Tokens) (e : PyError)
    (h : decode t.auth = .error e) :
    TokenState.build decode (some t) = .error e := by
  simp [TokenState.build, h]

/-- Claim C2, witness: under `sampleDecode` the auth token `"garbage"` is
undecodable and `build` raises the decode error instead of returning a
credentials-absent state. -/
theorem C2_build_raises_witness :
    TokenState.build sampleDecode (some ⟨"garbage", none, none⟩)
      = .error .decodeError :=
  C2_build_raises sampleDecode ⟨"garbage", none, none⟩ .decodeError rfl

/-- Claim C3: a leaf `Filter(col, v, EQUAL)` serializes to the single query
key `filter[col][$eq]` with value `v`, exactly as claimed; but the nested
composites diverge from the claim: the f-string building the nested path
drops the closing bracket after the index, so
`And([Filter(a), Filter(b)])` produces keys `filter[$and][0[a][$eq]` and
`filter[$and][1[b][$eq]` (and `Or` analogously `filter[$or][0[a][$eq]`),
not the claimed `filter[$and][0][a][$eq]` form, though still in
left-to-right depth-first order. -/
theorem C3_filter_serialization :
    RecordApi.listParams none (some [.Filter "col" (some .EQUAL) "v"])
        none none none none false
      = [("filter[col][$eq]", "v")] ∧
    RecordApi.listParams none
        (some [.And [.Filter "a" (some .EQUAL) "1", .Filter "b" (some .EQUAL) "2"]])
        none none none none false
      = [("filter[$and][0[a][$eq]", "1"), ("filter[$and][1[b][$eq]", "2")] ∧
    RecordApi.listParams none
        (some [.Or [.Filter "a" (some .EQUAL) "1", .Filter "b" (some .EQUAL) "2"]])
        none none none none false
      = [("filter[$or][0[a][$eq]", "1"), ("filter[$or][1[b][$eq]", "2")] := by
  exact ⟨by decide, by decide, by decide⟩

/-- Claim C4, counterexample: on the 2xx status 201 with a well-formed ids
body, the claim says `create` returns a `RecordId`, but the code's check is
`status_code > 200`, so it raises (with the status) instead. -/
theorem C4_counterexample :
    RecordApi.create ⟨201, .ok (.obj [("ids", .arr [.str "x"])])⟩
      = .error (.httpError 201) ∧
    ¬ ∃ id, RecordApi.create ⟨201, .ok (.obj [("ids", .arr [.str "x"])])⟩
      = .ok id := by
  refine ⟨rfl, ?_⟩
  rintro ⟨id, h⟩
  rw [show RecordApi.create ⟨201, .ok (.obj [("ids", .arr [.str "x"])])⟩
    = .error (.httpError 201) from rfl] at h
  exact Except.noConfusion h

/-- Claim C4 (amended): `create` raises an error carrying the status exactly
when `status_code > 200` (so 201 raises and statuses at or below 200 do not);
when the status passes and the body yields a non-empty id list, the first id
is returned; `read` performs no status check at all and returns whatever the
body parses to (read-after-delete fails only because the error body is not
valid JSON, not because of the status). -/
theorem C4_create_read_status (r : Response) :
    (200 < r.status_code → RecordApi.create r = .error (.httpError r.status_code)) ∧
    (∀ j i rest, r.status_code ≤ 200 → r.json = .ok j →
      record_ids_from_json j = .ok (i :: rest) → RecordApi.create r = .ok i) ∧
    (∀ j, r.json = .ok j → RecordApi.read r = .ok j) := by
  refine ⟨?_, ?_, ?_⟩
  · intro h
    simp [RecordApi.create, h]
  · intro j i rest hle hj hids
    simp [RecordApi.create, hj, hids, Bind.bind, Except.bind, not_lt.mpr hle]
  · intro j hj
    simp [RecordApi.read, hj]

/-- Claim C4, witness: a 500 create raises with the status; a 200 create with
body `{"ids": ["x"]}` returns the id `"x"`; a 404 read whose body is the JSON
string `"gone"` still returns that value instead of raising. -/
theorem C4_create_read_status_witness :
    RecordApi.create ⟨500, .ok .null⟩ = .error (.httpError 500) ∧
    RecordApi.create ⟨200, .ok (.obj [("ids", .arr [.str "x"])])⟩ = .ok ⟨"x"⟩ ∧
    RecordApi.read ⟨404, .ok (.str "gone")⟩ = .ok (.str "gone") :=
  ⟨(C4_create_read_status ⟨500, .ok .null⟩).1 (by decide),
   (C4_create_read_status ⟨200, .ok (.obj [("ids", .arr [.str "x"])])⟩).2.1
     (.obj [("ids", .arr [.str "x"])]) ⟨"x"⟩ [] (by decide) rfl rfl,
   (C4_create_read_status ⟨404, .ok (.str "gone")⟩).2.2 (.str "gone") rfl⟩

/-- Claim C5: for tokens with a syntactically valid auth token, `build`
succeeds and its headers have exactly the keys Content-Type and Authorization,
plus Refresh-Token iff a refresh token is present, plus CSRF-Token iff a csrf
token is present, with the claimed values; for absent tokens the headers are
exactly the Content-Type entry. -/
theorem C5_build_headers (decode : JwtDecode) (t : Tokens) (d : JSON)
    (claims : JwtToken) (h1 : decode t.auth = .ok (some d))
    (h2 : JwtToken.from_json d = .ok claims) :
    TokenState.build decode (some t)
      = .ok ⟨some (t, claims), TokenState.build_headers (some t)⟩ ∧
    dictKeys (TokenState.build_headers (some t))
      = ["Content-Type", "Authorization"]
        ++ (if t.refresh.isSome then ["Refresh-Token"] else [])
        ++ (if t.csrf.isSome then ["CSRF-Token"] else []) ∧
    dictGet (TokenState.build_headers (some t)) "Content-Type"
      = some "application/json" ∧
    dictGet (TokenState.build_headers (some t)) "Authorization"
      = some ("Bearer " ++ t.auth) ∧
    dictGet (TokenState.build_headers (some t)) "Refresh-Token" = t.refresh ∧
    dictGet (TokenState.build_headers (some t)) "CSRF-Token" = t.csrf ∧
    TokenState.build decode none
      = .ok ⟨none, [("Content-Type", "application/json")]⟩ := by
  obtain ⟨auth, refresh, csrf⟩ := t
  refine ⟨by simp [TokenState.build, h1, h2], ?_, ?_, ?_, ?_, ?_, rfl⟩ <;>
    cases refresh <;> cases csrf <;> rfl

/-- Claim C5, witness: the full header shape at the concrete valid token
`"oldAuth"` with both optional tokens present. -/
theorem C5_build_headers_witness :
    TokenState.build sampleDecode (some ⟨"oldAuth", some "r0", some "c0"⟩)
      = .ok ⟨some (⟨"oldAuth", some "r0", some "c0"⟩, sampleOldClaims),
          TokenState.build_headers (some ⟨"oldAuth", some "r0", some "c0"⟩)⟩ ∧
    dictKeys (TokenState.build_headers (some ⟨"oldAuth", some "r0", some "c0"⟩))
      = ["Content-Type", "Authorization", "Refresh-Token", "CSRF-Token"] :=
  ⟨(C5_build_headers sampleDecode ⟨"oldAuth", some "r0", some "c0"⟩
      (sampleClaimsJson 100) sampleOldClaims rfl rfl).1,
   (C5_build_headers sampleDecode ⟨"oldAuth", some "r0", some "c0"⟩
      (sampleClaimsJson 100) sampleOldClaims rfl rfl).2.1⟩

/-- Claim C6: for every starting state and every transport behaviour
(including transports that raise), `logout` returns normally (never raises)
with the cleared state, whose `tokens()` is absent; a second `logout` from the
cleared state behaves identically, so two logouts in a row never raise and
leave `currentTokens()` absent after each call. -/
theorem C6_logout (decode : JwtDecode) (transport : Transport) (now : Int)
    (ts : TokenState) :
    Client.logout decode transport now ts
      = .ok ⟨none, [("Content-Type", "application/json")]⟩ ∧
    Client.tokens ⟨none, [("Content-Type", "application/json")]⟩ = none ∧
    Client.logout decode transport now ⟨none, [("Content-Type", "application/json")]⟩
      = .ok ⟨none, [("Content-Type", "application/json")]⟩ :=
  ⟨rfl, rfl, rfl⟩

/-- Claim C7: when the refresh round-trip made with refresh token `r` succeeds
with a body carrying `auth_token` `a` and `csrf_token` `c`,
`_refreshTokensImpl` returns exactly the state built from
`Tokens(auth=a, refresh=r, csrf=c)` — and whenever that state holds
credentials, their refresh token is the one that was sent, never one taken
from the response body. -/
theorem C7_refresh (decode : JwtDecode) (transport : Transport) (ts : TokenState)
    (r : String) (resp : Response) (j : JSON) (a c : String)
    (h1 : transport "api/auth/v1/refresh" "POST"
      (.obj [("refresh_token", .str r)]) ts = .ok resp)
    (h2 : resp.json = .ok j)
    (h3 : j.getKey "auth_token" = .ok (.str a))
    (h4 : j.getKey "csrf_token" = .ok (.str c)) :
    Client._refreshTokensImpl decode transport ts r
      = TokenState.build decode (some ⟨a, some r, some c⟩) ∧
    ∀ st t cl, Client._refreshTokensImpl decode transport ts r = .ok st →
      st.state = some (t, cl) → t.refresh = some r := by
  have heq : Client._refreshTokensImpl decode transport ts r
      = TokenState.build decode (some ⟨a, some r, some c⟩) := by
    simp [Client._refreshTokensImpl, h1, h2, h3, h4]
  refine ⟨heq, ?_⟩
  intro st t cl hok hst
  rw [heq] at hok
  rw [TokenState.build_state_tokens decode ⟨a, some r, some c⟩ st t cl hok hst]

/-- Claim C7, witness: refreshing `sampleOldState` with token `"r0"` against
`sampleTransport` — whose refresh response carries a different
`refresh_token` field, `"SERVER-SIDE-R"` — yields the state built from the
sent token `"r0"`, which stores `refresh = "r0"`. -/
theorem C7_refresh_witness :
    Client._refreshTokensImpl sampleDecode sampleTransport sampleOldState "r0"
      = TokenState.build sampleDecode (some ⟨"newAuth", some "r0", some "c1"⟩) ∧
    Client._refreshTokensImpl sampleDecode sampleTransport sampleOldState "r0"
      = .ok sampleRefreshedState :=
  ⟨(C7_refresh sampleDecode sampleTransport sampleOldState "r0"
      ⟨200, .ok (.obj [("auth_token", .str "newAuth"),
        ("refresh_token", .str "SERVER-SIDE-R"), ("csrf_token", .str "c1")])⟩
      (.obj [("auth_token", .str "newAuth"),
        ("refresh_token", .str "SERVER-SIDE-R"), ("csrf_token", .str "c1")])
      "newAuth" "c1" rfl rfl rfl rfl).1,
   rfl⟩

/-- Helper: each `ApiBatch` call appends exactly its operation. -/
theorem applyApiBatchCall_eq (ops : List Operation) (c : Operation) :
    applyApiBatchCall ops c = ops ++ [c] := by
  cases c <;> rfl

/-- Helper: a call sequence accumulates its operations in call order. -/
theorem applyApiBatchCalls_eq (calls : List Operation) :
    applyApiBatchCalls calls = calls := by
  suffices h : ∀ acc, calls.foldl applyApiBatchCall acc = acc ++ calls by
    simpa using h []
  induction calls with
  | nil => intro acc; simp [List.foldl]
  | cons c rest ih =>
    intro acc
    simp [List.foldl, applyApiBatchCall_eq, ih]

/-- Helper: a JSON `ids` array of strings parses to the same strings as
`RecordId`s, in order. -/
theorem record_ids_from_json_strings (ids : List String) :
    record_ids_from_json (.obj [("ids", .arr (ids.map JSON.str))])
      = .ok (ids.map RecordId.mk) := by
  have hmap : ∀ l : List String,
      convertRecordIds (l.map JSON.str) = .ok (l.map RecordId.mk) := by
    intro l
    induction l with
    | nil => rfl
    | cons s rest ih =>
      simp [convertRecordIds, ih, JSON.asStr, Bind.bind, Except.bind,
        Pure.pure, Except.pure]
  calc record_ids_from_json (.obj [("ids", .arr (ids.map JSON.str))])
      = convertRecordIds (ids.map JSON.str) := rfl
    _ = .ok (ids.map RecordId.mk) := hmap ids

/-- Claim C8: a sequence of `ApiBatch.create`/`update`/`delete` calls
accumulates its tagged operations in exactly call order; `send` serializes
them as the single list `{"operations": [...]}` in that order, and on a 200
response carrying one id per operation returns one `RecordId` per operation in
the same order. -/
theorem C8_transaction (calls : List Operation) (ids : List String)
    (resp : Response) (h1 : resp.status_code = 200)
    (h2 : resp.json = .ok (.obj [("ids", .arr (ids.map JSON.str))])) :
    TransactionBatch.sendBody (applyApiBatchCalls calls)
      = .obj [("operations", .arr (calls.map Operation.toJson))] ∧
    TransactionBatch.send (applyApiBatchCalls calls) resp
      = .ok (ids.map RecordId.mk) ∧
    (ids.length = calls.length →
      (ids.map RecordId.mk).length = (applyApiBatchCalls calls).length) := by
  refine ⟨?_, ?_, ?_⟩
  · rw [applyApiBatchCalls_eq]
    rfl
  · rw [applyApiBatchCalls_eq]
    simp [TransactionBatch.send, h1, h2, Bind.bind, Except.bind,
      record_ids_from_json_strings]
  · intro hlen
    simp [applyApiBatchCalls_eq, hlen]

/-- Claim C8, witness: the spec scenario `[Create(A), Create(B), Delete(A)]`
serializes in submission order and returns exactly 3 identifiers in response
order. -/
theorem C8_transaction_witness :
    TransactionBatch.sendBody (applyApiBatchCalls
        [.Create "t" (.obj [("v", .number 1)]),
         .Create "t" (.obj [("v", .number 2)]),
         .Delete "t" "id1"])
      = .obj [("operations", .arr
          [Operation.toJson (.Create "t" (.obj [("v", .number 1)])),
           Operation.toJson (.Create "t" (.obj [("v", .number 2)])),
           Operation.toJson (.Delete "t" "id1")])] ∧
    TransactionBatch.send (applyApiBatchCalls
        [.Create "t" (.obj [("v", .number 1)]),
         .Create "t" (.obj [("v", .number 2)]),
         .Delete "t" "id1"])
        ⟨200, .ok (.obj [("ids", .arr [.str "id1", .str "id2", .str "id3"])])⟩
      = .ok [⟨"id1"⟩, ⟨"id2"⟩, ⟨"id3"⟩] :=
  ⟨(C8_transaction
      [.Create "t" (.obj [("v", .number 1)]),
       .Create "t" (.obj [("v", .number 2)]),
       .Delete "t" "id1"] ["id1", "id2", "id3"]
      ⟨200, .ok (.obj [("ids", .arr [.str "id1", .str "id2", .str "id3"])])⟩
      rfl rfl).1,
   (C8_transaction
      [.Create "t" (.obj [("v", .number 1)]),
       .Create "t" (.obj [("v", .number 2)]),
       .Delete "t" "id1"] ["id1", "id2", "id3"]
      ⟨200, .ok (.obj [("ids", .arr [.str "id1", .str "id2", .str "id3"])])⟩
      rfl rfl).2.1⟩

/-- Helper: whatever `Client.fetch` returns, the token-state slot it leaves
behind is either the starting state or the result of a successful pre-emptive
refresh of the starting state. -/
theorem Client.fetch_state_cases (decode : JwtDecode) (transport : Transport)
    (now : Int) (ts : TokenState) (path method : String) (data : JSON) :
    (∀ r ts1, Client.fetch decode transport now ts path method data = .ok (r, ts1) →
      ts1 = ts ∨ ∃ rt, Client._shouldRefresh ts now = some rt ∧
        Client._refreshTokensImpl decode transport ts rt = .ok ts1) ∧
    (∀ e ts1, Client.fetch decode transport now ts path method data = .error (e, ts1) →
      ts1 = ts ∨ ∃ rt, Client._shouldRefresh ts now = some rt ∧
        Client._refreshTokensImpl decode transport ts rt = .ok ts1) := by
  constructor
  · intro r ts1 h
    unfold Client.fetch at h
    cases hsr : Client._shouldRefresh ts now with
    | none =>
      rw [hsr] at h
      dsimp only at h
      cases htr : transport path method data ts with
      | ok resp => rw [htr] at h; cases h; exact .inl rfl
      | error e => rw [htr] at h; cases h
    | some rt =>
      rw [hsr] at h
      dsimp only at h
      cases hrf : Client._refreshTokensImpl decode transport ts rt with
      | error e => rw [hrf] at h; cases h
      | ok ts2 =>
        rw [hrf] at h
        dsimp only at h
        cases htr : transport path method data ts2 with
        | ok resp => rw [htr] at h; cases h; exact .inr ⟨rt, rfl, hrf⟩
        | error e => rw [htr] at h; cases h
  · intro e ts1 h
    unfold Client.fetch at h
    cases hsr : Client._shouldRefresh ts now with
    | none =>
      rw [hsr] at h
      dsimp only at h
      cases htr : transport path method data ts with
      | ok resp => rw [htr] at h; cases h
      | error e2 => rw [htr] at h; cases h; exact .inl rfl
    | some rt =>
      rw [hsr] at h
      dsimp only at h
      cases hrf : Client._refreshTokensImpl decode transport ts rt with
      | error e2 => rw [hrf] at h; cases h; exact .inl rfl
      | ok ts2 =>
        rw [hrf] at h
        dsimp only at h
        cases htr : transport path method data ts2 with
        | ok resp => rw [htr] at h; cases h
        | error e2 => rw [htr] at h; cases h; exact .inr ⟨rt, rfl, hrf⟩

/-- Claim C9, counterexample: starting from `sampleOldState` (near-expired,
refresh token `"r0"`), a login whose pre-emptive refresh succeeds but whose
login response lacks an `auth_token` field fails — yet the state after the
failed login is the refreshed state, not the starting state, falsifying
"the session state after the failed call is still S". -/
theorem C9_counterexample :
    Client.login sampleDecode sampleTransport 100 sampleOldState
      "admin@localhost" "secret"
      = .error (.keyError "auth_token", sampleRefreshedState) ∧
    sampleRefreshedState ≠ sampleOldState := by
  exact ⟨by decide, by decide⟩

/-- Claim C9 (amended): a failed login or refresh never installs tokens from
the failed exchange.  After a failed login the state is either the starting
state or the result of the successful pre-emptive refresh performed by the
dispatch on the way (the only way it can differ from S); and when the
pre-emptive refresh itself fails, `fetch` raises with the state exactly the
starting state S. -/
theorem C9_failed_login_refresh (decode : JwtDecode) (transport : Transport)
    (now : Int) (ts : TokenState) (email password : String) :
    (∀ e tsAfter, Client.login decode transport now ts email password
        = .error (e, tsAfter) →
      tsAfter = ts ∨ ∃ rt, Client._shouldRefresh ts now = some rt ∧
        Client._refreshTokensImpl decode transport ts rt = .ok tsAfter) ∧
    (∀ path method data rt e, Client._shouldRefresh ts now = some rt →
      Client._refreshTokensImpl decode transport ts rt = .error e →
      Client.fetch decode transport now ts path method data = .error (e, ts)) := by
  constructor
  · intro e tsAfter h
    unfold Client.login at h
    cases hf : Client.fetch decode transport now ts "api/auth/v1/login" "POST"
        (.obj [("email", .str email), ("password", .str password)]) with
    | error p =>
      obtain ⟨e0, ts0⟩ := p
      rw [hf] at h
      dsimp only at h
      cases h
      exact (Client.fetch_state_cases decode transport now ts _ _ _).2 _ _ hf
    | ok p =>
      obtain ⟨resp, ts0⟩ := p
      rw [hf] at h
      dsimp only at h
      cases hp : Client.loginFinish decode resp with
      | error e2 =>
        rw [hp] at h
        dsimp only at h
        cases h
        exact (Client.fetch_state_cases decode transport now ts _ _ _).1 _ _ hf
      | ok q =>
        obtain ⟨tk, ts2⟩ := q
        rw [hp] at h
        dsimp only at h
        cases h
  · intro path method data rt e hsr hrf
    unfold Client.fetch
    rw [hsr]
    dsimp only
    rw [hrf]

/-- Claim C9, witness: the amended statement applied at the counterexample
scenario (failed login after a successful pre-emptive refresh) and at a
scenario whose refresh round-trip fails on a dead transport (state stays
exactly the starting state). -/
theorem C9_failed_login_refresh_witness :
    (sampleRefreshedState = sampleOldState ∨ ∃ rt,
      Client._shouldRefresh sampleOldState 100 = some rt ∧
      Client._refreshTokensImpl sampleDecode sampleTransport sampleOldState rt
        = .ok sampleRefreshedState) ∧
    Client.fetch sampleDecode sampleTransportDown 100 sampleOldState
      "api/records/v1/t" "GET" .null = .error (.transportError, sampleOldState) :=
  ⟨(C9_failed_login_refresh sampleDecode sampleTransport 100 sampleOldState
      "admin@localhost" "secret").1 (.keyError "auth_token") sampleRefreshedState
      (by decide),
   (C9_failed_login_refresh sampleDecode sampleTransportDown 100 sampleOldState
      "e" "p").2 "api/records/v1/t" "GET" .null "r0" .transportError
      (by decide) rfl⟩

/-- Helper: a freshly allocated dict holds the allocated contents. -/
theorem DictStore.get_alloc_fresh (s : DictStore) (d : List (String × String)) :
    (s.alloc d).1.get (s.alloc d).2 = d := by
  simp [DictStore.alloc, DictStore.get, List.getD_eq_getElem?_getD,
    List.getElem?_concat_length]

/-- Helper: allocation does not disturb existing dicts. -/
theorem DictStore.get_alloc_old (s : DictStore) (d : List (String × String))
    (ref : Nat) (h : ref < s.dicts.length) :
    (s.alloc d).1.get ref = s.get ref := by
  simp [DictStore.alloc, DictStore.get, List.getD_eq_getElem?_getD,
    List.getElem?_append, h]

/-- Helper: reading back an in-bounds in-place update. -/
theorem DictStore.get_set_self (s : DictStore) (ref : Nat)
    (d : List (String × String)) (h : ref < s.dicts.length) :
    (s.set ref d).get ref = d := by
  simp [DictStore.set, DictStore.get, List.getD_eq_getElem?_getD,
    List.getElem?_set_eq_of_lt d h]

/-- Helper: an in-place update does not disturb other references. -/
theorem DictStore.get_set_ne (s : DictStore) (r1 r2 : Nat)
    (d : List (String × String)) (h : r1 ≠ r2) :
    (s.set r1 d).get r2 = s.get r2 := by
  simp [DictStore.set, DictStore.get, List.getD_eq_getElem?_getD,
    List.getElem?_set_ne h]

/-- Claim C10: `ThinClient.stream` sends a request dict that is a fresh copy
of the session's headers with `Accept: text/event-stream` and
`Cache-Control: no-store` added, while the session's own header dict — any
valid reference into the store — is left exactly as it was: the request dict
is a different reference, and dereferencing the session's headers after the
call yields the pre-call contents. -/
theorem C10_stream_frame (store : DictStore) (ref : Nat)
    (h : ref < store.dicts.length) :
    (ThinClient.stream store ref).1.get ref = store.get ref ∧
    (ThinClient.stream store ref).2 ≠ ref ∧
    (ThinClient.stream store ref).1.get (ThinClient.stream store ref).2
      = dictInsert (dictInsert (store.get ref) "Accept" "text/event-stream")
          "Cache-Control" "no-store" := by
  obtain ⟨L⟩ := store
  have hne : L.length ≠ ref := ne_of_gt h
  refine ⟨?_, ?_, ?_⟩ <;>
    simp [ThinClient.stream, DictStore.alloc, DictStore.set, DictStore.get,
      List.getD_eq_getElem?_getD, List.getElem?_set_ne hne,
      List.getElem?_set_eq_of_lt, List.getElem?_concat_length,
      List.getElem?_append, h, hne]

/-- Claim C10, witness: a store holding a single header dict; after the stream
call the session's dict is unchanged and the request used a fresh dict with
the two streaming headers appended. -/
theorem C10_stream_frame_witness :
    (ThinClient.stream ⟨[[("X-Demo", "y")]]⟩ 0).1.get 0 = [("X-Demo", "y")] ∧
    (ThinClient.stream ⟨[[("X-Demo", "y")]]⟩ 0).2 ≠ 0 ∧
    (ThinClient.stream ⟨[[("X-Demo", "y")]]⟩ 0).1.get
        (ThinClient.stream ⟨[[("X-Demo", "y")]]⟩ 0).2
      = [("X-Demo", "y"), ("Accept", "text/event-stream"),
         ("Cache-Control", "no-store")] :=
  ⟨(C10_stream_frame ⟨[[("X-Demo", "y")]]⟩ 0 (by decide)).1,
   (C10_stream_frame ⟨[[("X-Demo", "y")]]⟩ 0 (by decide)).2.1,
   ((C10_stream_frame ⟨[[("X-Demo", "y")]]⟩ 0 (by decide)).2.2).trans (by decide)⟩
